import Mathlib

/-
Verification of the decision engine of src/tools.py (a clothing-recommendation
assistant): the perceived-temperature calculator `Calc_RealFeel` and the
clothing matcher `Match_Clothing`.

Modelling conventions:
* `Calc_RealFeel` computes with Python floats; it is embedded over ℝ, with
  `Real.sqrt` for `math.sqrt` and `round1` for Python's `round(x, 1)`.
  Python rounds halves to even while `round1` (via Mathlib's `round`) rounds
  halves up; no statement below sits on an exact half except where the two
  agree, and such inputs are avoided in concrete evaluations.
* `Match_Clothing` takes a Python dict of numbers; it is embedded over ℚ with
  a structure of optional fields, `dict.get(k, default)` becoming
  `Option.getD`.  Its body is split into one Lean function per commented
  step of the source, threaded through the `MatchState` record that holds the
  five local variables the steps mutate (`base`, `accessories`, `extra_items`,
  `footwear`, `logic_parts`).
* Python substring tests (`"x" in s`, `s.find("x") == -1`) become
  `strContains`; `"sep".join` becomes `String.intercalate`;
  `list(set(...))` becomes `List.dedup` (a deterministic de-duplication -
  every string the code can put in these lists is distinct, so the choice of
  representative order is immaterial).
* Numbers interpolated into rationale f-strings are rendered with `toString`
  on ℚ.  The claims below compare whole rationale clauses, never the digit
  rendering itself.
-/

set_option linter.unusedVariables false

/-! ## Threshold constants (src/tools.py lines 17-39) -/

def TEMP_VERY_COLD : ℚ := 0

def TEMP_COLD : ℚ := 5

def TEMP_MILD : ℚ := 15

def TEMP_WARM : ℚ := 25

def TEMP_HOT : ℚ := 27

def TEMP_VERY_HOT : ℚ := 30

def HUMIDITY_HIGH : ℚ := 70

def HUMIDITY_VERY_HIGH : ℚ := 80

def HUMIDITY_EXTREME : ℚ := 90

def WIND_STRONG : ℚ := 4

def WIND_VERY_STRONG : ℚ := 7

def RAIN_CHANCE_MODERATE : ℚ := 20

def RAIN_CHANCE_HIGH : ℚ := 40

def RAIN_CHANCE_VERY_HIGH : ℚ := 50

def RAIN_CHANCE_EXTREME : ℚ := 70

/-! ## String helpers -/

/-- Substring test on lists of characters: Python's `needle in hay`. -/
def dataContains (needle : List Char) : List Char → Bool
  | [] => needle.isEmpty
  | c :: t => needle.isPrefixOf (c :: t) || dataContains needle t

/-- Python's `needle in hay` / `hay.find(needle) != -1` on strings. -/
def strContains (hay needle : String) : Bool := dataContains needle.data hay.data

/-! ## Calc_RealFeel (src/tools.py lines 258-303), over ℝ -/

/-- The branch on `temperature` computing `real_feel` before the wet-cold
correction (steps 1-3 of `Calc_RealFeel`). -/
noncomputable def realFeelBase (temperature wind_speed_kmh humidity : ℝ) : ℝ :=
  if temperature ≤ 10 then
    -- wind chill: temperature - 2 * sqrt(max(0, wind_speed_kmh))
    temperature - 2 * Real.sqrt (max 0 wind_speed_kmh)
  else if ((TEMP_WARM : ℚ) : ℝ) ≤ temperature then
    -- humidity extra: (humidity - 50) * 0.1
    temperature + (humidity - 50) * 0.1
  else
    -- blend region, temp_range = TEMP_WARM - 10
    temperature
      - (((TEMP_WARM : ℚ) : ℝ) - temperature) / (((TEMP_WARM : ℚ) : ℝ) - 10) * 1.5
          * Real.sqrt (max 0 wind_speed_kmh) / 5
      + (temperature - 10) / (((TEMP_WARM : ℚ) : ℝ) - 10) * (humidity - 50) * 0.05

/-- `real_feel` after the step-4 wet-cold correction, before rounding. -/
noncomputable def preRealFeel (temperature wind_speed_kmh humidity : ℝ) : ℝ :=
  let real_feel := realFeelBase temperature wind_speed_kmh humidity
  if temperature < ((TEMP_MILD : ℚ) : ℝ) ∧ ((HUMIDITY_HIGH : ℚ) : ℝ) < humidity then
    real_feel - (humidity - 70) / 30 * (15 - temperature) / 5 * 2
  else
    real_feel

/-- Python's `round(x, 1)` (model: round half up; see header comment). -/
noncomputable def round1 (x : ℝ) : ℝ := ((round (10 * x) : ℤ) : ℝ) / 10

/-- src/tools.py `Calc_RealFeel`: perceived temperature from temperature,
wind speed (km/h) and relative humidity. -/
noncomputable def Calc_RealFeel (temperature wind_speed_kmh humidity : ℝ) : ℝ :=
  round1 (preRealFeel temperature wind_speed_kmh humidity)

/-! ## Match_Clothing (src/tools.py lines 306-466), over ℚ -/

/-- The `weather_condition` dict: a field is `none` when the key is absent. -/
structure WeatherCondition where
  temp_max : Option ℚ
  temp_min : Option ℚ
  humidity : Option ℚ
  wind : Option ℚ
  wind_speed_kmh : Option ℚ
  precipitation : Option ℚ
deriving DecidableEq

/-- The five local variables of `Match_Clothing` that the scenario steps
mutate. -/
structure MatchState where
  base : String
  accessories : List String
  extra_items : List String
  footwear : String
  logic_parts : List String
deriving DecidableEq

/-! Rationale clauses built by f-strings in the source, as explicit
concatenations. -/

/-- Scenario A rationale (line 352). -/
def heatHumidClause (temp humidity : ℚ) : String :=
  "检测到湿热桑拿环境（温度" ++ toString temp ++ "°C，湿度" ++ toString humidity
    ++ "%），已为您优化为速干排汗方案，禁止厚重衣物"

/-- Scenario B rationale (line 361). -/
def coldWetClause (temp humidity : ℚ) : String :=
  "检测到湿冷环境（温度" ++ toString temp ++ "°C，湿度" ++ toString humidity
    ++ "%），已强化防风拨水方案，避免衣物受潮失去保暖性"

/-- Strong-wind rationale (line 381). -/
def strongWindClause (wind_level : ℚ) : String :=
  "检测到" ++ toString wind_level ++ "级强风，已启用强风加固方案，避免易兜风衣物"

/-- Moderate-wind rationale (line 385). -/
def moderateWindClause (wind_level : ℚ) : String :=
  "考虑" ++ toString wind_level ++ "级强风降温影响，已添加防风层"

/-- Hot-and-windy rationale (line 390). -/
def hotWindClause (temperature wind_level : ℚ) : String :=
  "检测到高温强风矛盾天气（温度" ++ toString temperature ++ "°C，" ++ toString wind_level
    ++ "级风），已平衡防风与散热需求"

/-- Heavy-rain rationale (line 402). -/
def rainHeavyClause (rain_chance : ℚ) : String :=
  "降水概率" ++ toString rain_chance ++ "%，建议专业防滑雨鞋"

/-- Umbrella-only rain rationale (line 404). -/
def rainUmbrellaClause (rain_chance : ℚ) : String :=
  "降水概率" ++ toString rain_chance ++ "%，建议携带雨具"

/-- Sun-protection rationale (line 412). -/
def uvClause : String := "晴天高温，已添加防晒装备"

/-- Fog-warning rationale (line 431). -/
def fogClause (humidity : ℚ) : String :=
  "检测到极高湿度（" ++ toString humidity ++ "%）且无降水，已触发浓雾预警方案（多因素关联分析）"

/-- Moisture-management rationale (line 435). -/
def dampClause (humidity : ℚ) : String :=
  "检测到极高湿度（" ++ toString humidity ++ "%），已切换至防潮排汗方案"

/-- Step 1 (lines 331-343): base layer and accessories from the perceived
temperature band. -/
def coreLayer (real_feel : ℚ) : String × List String :=
  if real_feel < TEMP_VERY_COLD then
    ("保暖层（长袖内衣+毛衣）+ 加厚防风羽绒服", ["围巾", "手套"])
  else if TEMP_VERY_COLD ≤ real_feel ∧ real_feel < TEMP_MILD then
    ("长袖衬衫/针织衫 + 防风夹克或呢大衣", [])
  else if TEMP_MILD ≤ real_feel ∧ real_feel < TEMP_WARM then
    ("短袖/薄长袖 + 轻便外套（如薄开衫）", [])
  else
    ("吸湿排汗短袖 + 宽松短裤/短裙", [])

/-- Scenarios A and B (lines 347-361): heat-humid override, `elif` cold-wet
override. -/
def scenarioAB (temp humidity : ℚ) (st : MatchState) : MatchState :=
  if TEMP_HOT < temp ∧ HUMIDITY_HIGH < humidity then
    { st with
      base := "【清爽模式】极薄透气面料（亚麻/速干材质）"
      extra_items := st.extra_items ++ ["极薄防晒衣（预防强冷气房温差）"]
      footwear := "透气凉鞋或网面运动鞋"
      logic_parts := st.logic_parts ++ [heatHumidClause temp humidity] }
  else if temp < 12 ∧ HUMIDITY_HIGH < humidity then
    { st with
      base :=
        if strContains st.base "羽绒服" = false ∧ strContains st.base "夹克" = false then
          "防风拨水外套 + " ++ st.base
        else st.base
      extra_items := st.extra_items ++ ["暖宝宝或发热内衣（湿气会加速体温流失）"]
      footwear := "防水靴或防拨水运动鞋"
      logic_parts := st.logic_parts ++ [coldWetClause temp humidity] }
  else
    st

/-- Lines 366-390: the nested helper; `nonlocal base` and the
`wind_protection_added_to_base` flag become an explicit state/flag pair. -/
def _handle_wind_protection (wind_level temperature : ℚ) (is_strong_wind : Bool)
    (st : MatchState) (wind_protection_added_to_base : Bool) : MatchState × Bool :=
  if temperature < TEMP_HOT then
    let hasWindproof := strContains st.base "防风"
    let st1 :=
      if hasWindproof = false then
        { st with base :=
            (if is_strong_wind then "强风加固型外套（冲锋衣/防风夹克） + "
             else "防风层（冲锋衣/风衣） + ") ++ st.base }
      else st
    let flag1 := if hasWindproof = false then true else wind_protection_added_to_base
    if is_strong_wind then
      ({ st1 with
          extra_items := st1.extra_items
            ++ ["【强风加固型建议】避免易兜风衣物（如宽松长裙、大摆外套），选择贴身剪裁"]
          logic_parts := st1.logic_parts ++ [strongWindClause wind_level] }, flag1)
    else if flag1 = false then
      ({ st1 with
          extra_items := st1.extra_items ++ ["防风层（冲锋衣/风衣）"]
          logic_parts := st1.logic_parts ++ [moderateWindClause wind_level] }, flag1)
    else
      (st1, flag1)
  else
    ({ st with
        extra_items := st.extra_items
          ++ ["【强风vs高温权衡】建议轻薄防风外套，避免完全暴露于强风中，同时保持透气性",
              "防风墨镜（预防风沙/强风）"]
        logic_parts := st.logic_parts ++ [hotWindClause temperature wind_level] },
     wind_protection_added_to_base)

/-- Lines 392-395: strong tier first, `elif` moderate tier. -/
def windStep (wind temp : ℚ) (st : MatchState) : MatchState :=
  if WIND_VERY_STRONG ≤ wind then
    (_handle_wind_protection wind temp true st false).1
  else if WIND_STRONG ≤ wind then
    (_handle_wind_protection wind temp false st false).1
  else
    st

/-- Lines 397-404: precipitation handling. -/
def rainStep (rain_chance : ℚ) (st : MatchState) : MatchState :=
  if RAIN_CHANCE_HIGH < rain_chance then
    let st1 := { st with extra_items := st.extra_items ++ ["折叠伞/雨具"] }
    if RAIN_CHANCE_EXTREME < rain_chance then
      { st1 with
        footwear := "专业防滑雨鞋或备用袜子"
        logic_parts := st1.logic_parts ++ [rainHeavyClause rain_chance] }
    else
      { st1 with logic_parts := st1.logic_parts ++ [rainUmbrellaClause rain_chance] }
  else
    st

/-- Lines 406-412: sun/UV accessories. -/
def uvStep (temp rain_chance : ℚ) (st : MatchState) : MatchState :=
  if 20 < temp ∧ rain_chance < RAIN_CHANCE_MODERATE then
    let acc1 :=
      if st.accessories.contains "防晒霜" then st.accessories
      else st.accessories ++ ["防晒霜"]
    let acc2 := if TEMP_WARM ≤ temp then acc1 ++ ["遮阳帽", "墨镜"] else acc1
    { st with accessories := acc2, logic_parts := st.logic_parts ++ [uvClause] }
  else
    st

/-- Lines 414-425: footwear fallback, only when footwear is still the
default. -/
def footwearFallback (temp rain_chance : ℚ) (st : MatchState) : MatchState :=
  if st.footwear = "常规运动鞋" then
    { st with footwear :=
        if RAIN_CHANCE_EXTREME < rain_chance then "专业防滑雨鞋或备用袜子"
        else if RAIN_CHANCE_HIGH < rain_chance then "防滑运动鞋（建议防水处理）"
        else if temp < 5 then "保暖防滑靴"
        else if TEMP_VERY_HOT < temp then "透气凉鞋或网面运动鞋"
        else if TEMP_WARM < temp then "透气运动鞋或凉鞋"
        else st.footwear }
  else
    st

/-- Lines 427-435: fog warning, `elif` moisture management. -/
def fogStep (humidity rain_chance : ℚ) (st : MatchState) : MatchState :=
  if HUMIDITY_EXTREME < humidity ∧ rain_chance < RAIN_CHANCE_MODERATE then
    { st with
      extra_items := st.extra_items
        ++ ["【浓雾预警】湿度极高且无降水，可能存在浓雾，建议选择颜色鲜艳或反光材质的衣物，提高可见度"]
      logic_parts := st.logic_parts ++ [fogClause humidity] }
  else if HUMIDITY_VERY_HIGH < humidity ∧ rain_chance < RAIN_CHANCE_VERY_HIGH then
    if strContains (String.intercalate " " st.extra_items) "防潮" = false then
      { st with logic_parts := st.logic_parts ++ [dampClause humidity] }
    else st
  else
    st

/-- The state after all scenario steps of `Match_Clothing` (lines 319-435),
before the output dict is assembled. -/
def matchState (real_feel : ℚ) (weather_condition : WeatherCondition) : MatchState :=
  let temp := weather_condition.temp_max.getD 20
  let temp_min := weather_condition.temp_min.getD 20
  let temp_avg := (temp + temp_min) / 2
  let humidity := weather_condition.humidity.getD 50
  let wind := weather_condition.wind.getD 0
  let wind_speed_kmh := weather_condition.wind_speed_kmh.getD 0
  let rain_chance := weather_condition.precipitation.getD 0
  let st0 : MatchState :=
    { base := (coreLayer real_feel).1
      accessories := (coreLayer real_feel).2
      extra_items := []
      footwear := "常规运动鞋"
      logic_parts := [] }
  fogStep humidity rain_chance
    (footwearFallback temp rain_chance
      (uvStep temp rain_chance
        (rainStep rain_chance
          (windStep wind temp
            (scenarioAB temp humidity st0)))))

/-- Lines 437-446: the `logic_desc` string. -/
def assembleLogic (real_feel temp wind humidity rain_chance : ℚ)
    (logic_parts : List String) : String :=
  let d := "基于体感" ++ toString real_feel ++ "°C判断。"
  let d :=
    if logic_parts.isEmpty = false then d ++ " " ++ String.intercalate "；" logic_parts
    else d
  if TEMP_HOT ≤ temp ∧ WIND_STRONG ≤ wind then
    d ++ " 【矛盾天气权衡】在高温强风环境下，已综合考虑防风需求与散热需求，建议轻薄防风材质。"
  else if HUMIDITY_EXTREME < humidity ∧ rain_chance < RAIN_CHANCE_MODERATE then
    d ++ " 【多因素关联】极高湿度且无降水，可能存在浓雾，已优化为浓雾预警方案。"
  else
    d

/-- The dict returned by `Match_Clothing` (lines 452-466). -/
structure ClothingResult where
  clothing_base : String
  base_clothing : String
  accessories : String
  extra_items : String
  footwear : String
  logic : String
  logic_summary : String
  protection_layer : String
  protection_tips : List String
  clothing : String
  special_items : String
  special_items_list : List String
deriving DecidableEq

/-- src/tools.py `Match_Clothing`: scenario-based clothing decision from the
perceived temperature and the weather dict. -/
def Match_Clothing (real_feel : ℚ) (weather_condition : WeatherCondition) : ClothingResult :=
  let temp := weather_condition.temp_max.getD 20
  let humidity := weather_condition.humidity.getD 50
  let wind := weather_condition.wind.getD 0
  let rain_chance := weather_condition.precipitation.getD 0
  let st := matchState real_feel weather_condition
  let logic_desc := assembleLogic real_feel temp wind humidity rain_chance st.logic_parts
  let accessories_str :=
    if st.accessories.isEmpty = false then String.intercalate "、" st.accessories.dedup
    else "无"
  let extra_items_str :=
    if st.extra_items.isEmpty = false then String.intercalate "、" st.extra_items.dedup
    else "无"
  { clothing_base := st.base
    base_clothing := st.base
    accessories := accessories_str
    extra_items := extra_items_str
    footwear := st.footwear
    logic := logic_desc
    logic_summary := logic_desc
    protection_layer := extra_items_str
    protection_tips := st.logic_parts
    clothing := st.base
    special_items := if accessories_str ≠ "无" then accessories_str else "无特殊装备"
    special_items_list := st.accessories }

/-! ## Concrete inputs used by the claims -/

/-- Weather of end-to-end scenario 3: tempMax 8, tempMin 2, humidity 88,
windLevel 8, precipitation 60. -/
def wcScenario3 : WeatherCondition :=
  { temp_max := some 8
    temp_min := some 2
    humidity := some 88
    wind := some 8
    wind_speed_kmh := none
    precipitation := some 60 }

/-- A mild day with moderate wind: tempMax 20, wind 5, precipitation 30. -/
def wcModerateWind : WeatherCondition :=
  { temp_max := some 20
    temp_min := some 20
    humidity := some 50
    wind := some 5
    wind_speed_kmh := none
    precipitation := some 30 }

/-- Weather of end-to-end scenario 2: tempMax 32, tempMin 26, humidity 85,
windLevel 2, precipitation 10. -/
def wcHeatHumid : WeatherCondition :=
  { temp_max := some 32
    temp_min := some 26
    humidity := some 85
    wind := some 2
    wind_speed_kmh := none
    precipitation := some 10 }

/-- The empty weather dict. -/
def wcEmpty : WeatherCondition :=
  { temp_max := none
    temp_min := none
    humidity := none
    wind := none
    wind_speed_kmh := none
    precipitation := none }

/-! ## Generic helper lemmas -/

theorem strData_append (a b : String) : (a ++ b).data = a.data ++ b.data := rfl

lemma take_append_left {α : Type} (l₁ l₂ : List α) (n : ℕ) (h : n ≤ l₁.length) :
    (l₁ ++ l₂).take n = l₁.take n := by
  rw [List.take_append_eq_append_take, Nat.sub_eq_zero_of_le h, List.take_zero,
    List.append_nil]

lemma str_ne_of_take (n : ℕ) (s t : String) (h : s.data.take n ≠ t.data.take n) :
    s ≠ t := fun he => h (by rw [he])

lemma temp_warm_real : ((TEMP_WARM : ℚ) : ℝ) = 25 := by norm_num [TEMP_WARM]

lemma temp_mild_real : ((TEMP_MILD : ℚ) : ℝ) = 15 := by norm_num [TEMP_MILD]

lemma humidity_high_real : ((HUMIDITY_HIGH : ℚ) : ℝ) = 70 := by norm_num [HUMIDITY_HIGH]

lemma round1_eval (x : ℝ) (k : ℤ) (h1 : (k : ℝ) ≤ 10 * x + 1/2)
    (h2 : 10 * x + 1/2 < k + 1) : round1 x = k / 10 := by
  rw [round1, round_eq, show ⌊10 * x + 1/2⌋ = k from Int.floor_eq_iff.mpr ⟨h1, h2⟩]

lemma round1_mono {x y : ℝ} (h : x ≤ y) : round1 x ≤ round1 y := by
  have hr : round (10 * x) ≤ round (10 * y) := by
    rw [round_eq, round_eq]; exact Int.floor_mono (by linarith)
  have hc : ((round (10 * x) : ℤ) : ℝ) ≤ ((round (10 * y) : ℤ) : ℝ) := Int.cast_le.mpr hr
  rw [round1, round1]; linarith

/-! ## C8, C9, C10 -/

/-- C8: `Match_Clothing` is deterministic — two calls on identical perceived
temperature and identical weather dict return identical results in every
field.  In the embedding the function is pure, mirroring the source, which
reads no clock and draws no randomness. -/
theorem match_clothing_deterministic (rf₁ rf₂ : ℚ) (w₁ w₂ : WeatherCondition)
    (hr : rf₁ = rf₂) (hw : w₁ = w₂) : Match_Clothing rf₁ w₁ = Match_Clothing rf₂ w₂ := by
  rw [hr, hw]

/-- C8 witness: the determinism theorem applied at a concrete input. -/
theorem match_clothing_deterministic_witness :
    ((5 : ℚ) = 5 ∧ wcScenario3 = wcScenario3) ∧
      Match_Clothing 5 wcScenario3 = Match_Clothing 5 wcScenario3 :=
  ⟨⟨rfl, rfl⟩, match_clothing_deterministic 5 5 wcScenario3 wcScenario3 rfl rfl⟩

/-- C9: `Match_Clothing` never fails on a dict with absent keys — each absent
field is read through a default (temp_max 20, temp_min 20, humidity 50,
wind 0, wind_speed_kmh 0, precipitation 0), so the result on any dict equals
the result on the dict with every absent field replaced by its default, and
a complete record is always produced (totality is by construction of the
embedding, mirroring the total source code path). -/
theorem match_clothing_total_defaults :
    (∀ (rf : ℚ) (wc : WeatherCondition),
      Match_Clothing rf wc = Match_Clothing rf
        { temp_max := some (wc.temp_max.getD 20)
          temp_min := some (wc.temp_min.getD 20)
          humidity := some (wc.humidity.getD 50)
          wind := some (wc.wind.getD 0)
          wind_speed_kmh := some (wc.wind_speed_kmh.getD 0)
          precipitation := some (wc.precipitation.getD 0) })
    ∧ (∀ rf : ℚ, Match_Clothing rf wcEmpty = Match_Clothing rf
        { temp_max := some 20
          temp_min := some 20
          humidity := some 50
          wind := some 0
          wind_speed_kmh := some 0
          precipitation := some 0 }) :=
  ⟨fun _ _ => rfl, fun _ => rfl⟩

/-- C10: in every result of `Match_Clothing`, `clothing_base`, `base_clothing`
and `clothing` hold the same base-layer string, `logic` and `logic_summary`
the same rationale string, `extra_items` and `protection_layer` the same
joined extras string. -/
theorem match_clothing_alias_fields (rf : ℚ) (wc : WeatherCondition) :
    (Match_Clothing rf wc).clothing_base = (Match_Clothing rf wc).base_clothing
    ∧ (Match_Clothing rf wc).clothing = (Match_Clothing rf wc).clothing_base
    ∧ (Match_Clothing rf wc).clothing_base = (matchState rf wc).base
    ∧ (Match_Clothing rf wc).logic = (Match_Clothing rf wc).logic_summary
    ∧ (Match_Clothing rf wc).extra_items = (Match_Clothing rf wc).protection_layer :=
  ⟨rfl, rfl, rfl, rfl, rfl⟩

/-! ## C2: no wind, low temperature -/

/-- C2 (amended): for every temperature ≤ 10 °C and windSpeedKmh = 0, with
humidity in [0, 70], `Calc_RealFeel` returns the input temperature rounded to
one decimal place (hence exactly the input whenever it is already at
one-decimal precision).  The original claim — any humidity in [0, 100] and
the exact input returned — fails because the wet-cold correction fires for
humidity > 70, and because the result is rounded. -/
theorem calc_realfeel_no_wind (t h : ℝ) (ht : t ≤ 10) (h0 : 0 ≤ h) (h70 : h ≤ 70) :
    Calc_RealFeel t 0 h = round1 t := by
  have hwet : ¬(t < (15 : ℝ) ∧ (70 : ℝ) < h) := by rintro ⟨_, hh⟩; linarith
  simp only [Calc_RealFeel, preRealFeel, realFeelBase, temp_mild_real, humidity_high_real,
    temp_warm_real]
  rw [if_neg hwet, if_pos ht]
  norm_num [max_self, Real.sqrt_zero]

/-- C2 witness: the amended theorem applied at temperature 7, humidity 60. -/
theorem calc_realfeel_no_wind_witness :
    ((7 : ℝ) ≤ 10 ∧ (0 : ℝ) ≤ 60 ∧ (60 : ℝ) ≤ 70) ∧
      Calc_RealFeel 7 0 60 = round1 7 :=
  ⟨by norm_num, calc_realfeel_no_wind 7 60 (by norm_num) (by norm_num) (by norm_num)⟩

/-- C2 counterexample: at temperature 10, wind 0, humidity 88 (within the
claimed humidity range [0,100]) the function returns 8.8, not 10, because the
wet-cold correction fires; and at temperature 9.97, wind 0, humidity 50 it
returns 10, not 9.97, because of the one-decimal rounding. -/
theorem calc_realfeel_no_wind_cex :
    Calc_RealFeel 10 0 88 = 44/5 ∧ (44/5 : ℝ) ≠ 10 ∧
    Calc_RealFeel (997/100) 0 50 = 10 ∧ (997/100 : ℝ) ≠ 10 := by
  refine ⟨?_, by norm_num, ?_, by norm_num⟩
  · have h1 : preRealFeel 10 0 88 = 44/5 := by
      simp only [preRealFeel, realFeelBase, temp_mild_real, humidity_high_real,
        temp_warm_real]
      rw [if_pos (by norm_num : (10:ℝ) < 15 ∧ (70:ℝ) < 88),
        if_pos (by norm_num : (10:ℝ) ≤ 10)]
      norm_num [max_self, Real.sqrt_zero]
    simp only [Calc_RealFeel, h1]
    rw [round1_eval (44/5) 88 (by norm_num) (by norm_num)]
    norm_num
  · have h1 : preRealFeel (997/100) 0 50 = 997/100 := by
      simp only [preRealFeel, realFeelBase, temp_mild_real, humidity_high_real,
        temp_warm_real]
      rw [if_neg (by norm_num : ¬((997/100:ℝ) < 15 ∧ (70:ℝ) < 50)),
        if_pos (by norm_num : (997/100:ℝ) ≤ 10)]
      norm_num [max_self, Real.sqrt_zero]
    simp only [Calc_RealFeel, h1]
    rw [round1_eval (997/100) 100 (by norm_num) (by norm_num)]
    norm_num

/-! ## C7: high temperature, baseline humidity -/

/-- C7 (amended): for every temperature ≥ 25 °C and every wind speed,
`Calc_RealFeel` at humidity 50 returns the input temperature rounded to one
decimal place — the humidity term is neutral at the 50 % baseline — and hence
exactly the input whenever the input is already at one-decimal precision.
The original "returns exactly the input temperature" fails for inputs with
more than one decimal, because of the final rounding. -/
theorem calc_realfeel_humidity_neutral (t w : ℝ) (ht : 25 ≤ t) :
    Calc_RealFeel t w 50 = round1 t ∧ (round1 t = t → Calc_RealFeel t w 50 = t) := by
  have h : Calc_RealFeel t w 50 = round1 t := by
    simp only [Calc_RealFeel, preRealFeel, realFeelBase, temp_mild_real, humidity_high_real,
      temp_warm_real]
    rw [if_neg (by rintro ⟨_, hh⟩; norm_num at hh : ¬(t < (15:ℝ) ∧ (70:ℝ) < 50)),
      if_neg (by linarith : ¬ t ≤ 10), if_pos ht]
    norm_num
  exact ⟨h, fun hr => by rw [h, hr]⟩

/-- C7 witness: the amended theorem applied at temperature 26, wind 3. -/
theorem calc_realfeel_humidity_neutral_witness :
    ((25 : ℝ) ≤ 26) ∧
      (Calc_RealFeel 26 3 50 = round1 26 ∧ (round1 26 = 26 → Calc_RealFeel 26 3 50 = 26)) :=
  ⟨by norm_num, calc_realfeel_humidity_neutral 26 3 (by norm_num)⟩

/-- C7 counterexample: at temperature 25.03 (≥ 25) and humidity 50 the
function returns 25.0, not the input 25.03 — the result is rounded to one
decimal place. -/
theorem calc_realfeel_humidity_neutral_cex :
    Calc_RealFeel (2503/100) 0 50 = 25 ∧ (2503/100 : ℝ) ≠ 25 := by
  refine ⟨?_, by norm_num⟩
  have h1 : preRealFeel (2503/100) 0 50 = 2503/100 := by
    simp only [preRealFeel, realFeelBase, temp_mild_real, humidity_high_real, temp_warm_real]
    rw [if_neg (by norm_num : ¬((2503/100:ℝ) < 15 ∧ (70:ℝ) < 50)),
      if_neg (by norm_num : ¬(2503/100:ℝ) ≤ 10),
      if_pos (by norm_num : (25:ℝ) ≤ 2503/100)]
    norm_num
  simp only [Calc_RealFeel, h1]
  rw [round1_eval (2503/100) 250 (by norm_num) (by norm_num)]
  norm_num

/-! ## C4: blend branch -/

/-- C4: for every temperature strictly between 10 and 25 °C, wind ≥ 0 and
humidity in [0,100] with humidity ≤ 70 or temperature ≥ 15 (so the wet-cold
correction is out of play), `Calc_RealFeel` returns
round(t − ((25 − t)/15)·1.5·√w/5 + ((t − 10)/15)·(h − 50)·0.05, 1); and the
boundaries are inclusive to the outer branches: at exactly 10 °C the
temperature branch computes the wind-chill formula, at exactly 25 °C the
humidity formula. -/
theorem calc_realfeel_blend (t w h : ℝ) :
    (10 < t → t < 25 → 0 ≤ w → 0 ≤ h → h ≤ 100 → (h ≤ 70 ∨ 15 ≤ t) →
      Calc_RealFeel t w h =
        round1 (t - (25 - t) / 15 * 1.5 * Real.sqrt w / 5 + (t - 10) / 15 * (h - 50) * 0.05))
    ∧ realFeelBase 10 w h = 10 - 2 * Real.sqrt (max 0 w)
    ∧ realFeelBase 25 w h = 25 + (h - 50) * 0.1 := by
  refine ⟨?_, ?_, ?_⟩
  · intro h10 h25 hw _ _ hwet
    have hnwet : ¬(t < (15:ℝ) ∧ (70:ℝ) < h) := by
      rcases hwet with h70 | h15
      · rintro ⟨_, hh⟩; linarith
      · rintro ⟨hlt, _⟩; linarith
    simp only [Calc_RealFeel, preRealFeel, realFeelBase, temp_mild_real, humidity_high_real,
      temp_warm_real]
    rw [if_neg hnwet, if_neg (by linarith : ¬ t ≤ 10), if_neg (by linarith : ¬ (25:ℝ) ≤ t),
      max_eq_right hw]
    ring_nf
  · simp only [realFeelBase]
    rw [if_pos (by norm_num : (10:ℝ) ≤ 10)]
  · simp only [realFeelBase, temp_warm_real]
    rw [if_neg (by norm_num : ¬(25:ℝ) ≤ 10), if_pos (le_refl (25:ℝ))]

/-- C4 witness: the blend equality applied at temperature 12, wind 0,
humidity 50, and the two boundary equalities at the same wind/humidity. -/
theorem calc_realfeel_blend_witness :
    ((10:ℝ) < 12 ∧ (12:ℝ) < 25 ∧ (0:ℝ) ≤ 0 ∧ (0:ℝ) ≤ 50 ∧ (50:ℝ) ≤ 100 ∧
      ((50:ℝ) ≤ 70 ∨ (15:ℝ) ≤ 12)) ∧
    (Calc_RealFeel 12 0 50 =
        round1 (12 - (25 - 12) / 15 * 1.5 * Real.sqrt 0 / 5 + (12 - 10) / 15 * (50 - 50) * 0.05)
      ∧ realFeelBase 10 0 50 = 10 - 2 * Real.sqrt (max 0 0)
      ∧ realFeelBase 25 0 50 = 25 + ((50:ℝ) - 50) * 0.1) := by
  refine ⟨⟨by norm_num, by norm_num, by norm_num, by norm_num, by norm_num, Or.inl (by norm_num)⟩, ?_⟩
  exact ⟨(calc_realfeel_blend 12 0 50).1 (by norm_num) (by norm_num) (by norm_num)
      (by norm_num) (by norm_num) (Or.inl (by norm_num)),
    (calc_realfeel_blend 10 0 50).2.1,
    (calc_realfeel_blend 25 0 50).2.2⟩

/-! ## C6: wet-cold correction -/

/-- C6 (amended): the wet-cold correction applies exactly when
temperature < 15 and humidity > 70, subtracting
((humidity − 70)/30)·((15 − temperature)/5)·2 on top of whichever temperature
branch fired; consequently, for every temperature < 14 and humidity > 70 the
pre-rounding perceived value is strictly smaller than at the same temperature
and wind with humidity 70, and the rounded return value is ≤ the value at
humidity 70.  The original strict-decrease consequence fails for
14 ≤ temperature < 15, where the blend branch's own humidity term outweighs
the correction, and can also be absorbed by the rounding. -/
theorem calc_realfeel_wet_cold (t w h : ℝ) :
    (¬(t < 15 ∧ 70 < h) → Calc_RealFeel t w h = round1 (realFeelBase t w h))
    ∧ (t < 15 → 70 < h →
        Calc_RealFeel t w h = round1 (realFeelBase t w h - (h - 70) / 30 * (15 - t) / 5 * 2))
    ∧ (t < 14 → 70 < h →
        preRealFeel t w h < preRealFeel t w 70 ∧
          Calc_RealFeel t w h ≤ Calc_RealFeel t w 70) := by
  refine ⟨?_, ?_, ?_⟩
  · intro hn
    simp only [Calc_RealFeel, preRealFeel, temp_mild_real, humidity_high_real]
    rw [if_neg hn]
  · intro h1 h2
    simp only [Calc_RealFeel, preRealFeel, temp_mild_real, humidity_high_real]
    rw [if_pos ⟨h1, h2⟩]
  · intro h14 h70
    have hc1 : preRealFeel t w h = realFeelBase t w h - (h - 70) / 30 * (15 - t) / 5 * 2 := by
      simp only [preRealFeel, temp_mild_real, humidity_high_real]
      rw [if_pos ⟨by linarith, h70⟩]
    have hc2 : preRealFeel t w 70 = realFeelBase t w 70 := by
      simp only [preRealFeel, temp_mild_real, humidity_high_real]
      rw [if_neg (by rintro ⟨_, hh⟩; linarith)]
    have key : preRealFeel t w h < preRealFeel t w 70 := by
      by_cases h10 : t ≤ 10
      · have hb : realFeelBase t w h = realFeelBase t w 70 := by
          simp only [realFeelBase, temp_warm_real]
          rw [if_pos h10, if_pos h10]
        have hpos : 0 < (h - 70) * (15 - t) := mul_pos (by linarith) (by linarith)
        rw [hc1, hc2, hb]
        nlinarith
      · push_neg at h10
        have hb1 : realFeelBase t w h =
            t - (25 - t) / (25 - 10) * 1.5 * Real.sqrt (max 0 w) / 5
              + (t - 10) / (25 - 10) * (h - 50) * 0.05 := by
          simp only [realFeelBase, temp_warm_real]
          rw [if_neg (not_le.mpr h10), if_neg (by linarith : ¬ (25:ℝ) ≤ t)]
        have hb2 : realFeelBase t w 70 =
            t - (25 - t) / (25 - 10) * 1.5 * Real.sqrt (max 0 w) / 5
              + (t - 10) / (25 - 10) * ((70:ℝ) - 50) * 0.05 := by
          simp only [realFeelBase, temp_warm_real]
          rw [if_neg (not_le.mpr h10), if_neg (by linarith : ¬ (25:ℝ) ≤ t)]
        have hdiff : preRealFeel t w h - preRealFeel t w 70 = (h - 70) * (5*t - 70) / 300 := by
          rw [hc1, hc2, hb1, hb2]; ring
        have hpos : 0 < (h - 70) * (70 - 5*t) := mul_pos (by linarith) (by linarith)
        nlinarith
    exact ⟨key, round1_mono (le_of_lt key)⟩

/-- C6 witness: the strict pre-rounding comparison applied at temperature 12,
wind 0, humidity 100 versus 70. -/
theorem calc_realfeel_wet_cold_witness :
    ((12:ℝ) < 14 ∧ (70:ℝ) < 100) ∧
      (preRealFeel 12 0 100 < preRealFeel 12 0 70 ∧
        Calc_RealFeel 12 0 100 ≤ Calc_RealFeel 12 0 70) :=
  ⟨⟨by norm_num, by norm_num⟩,
    (calc_realfeel_wet_cold 12 0 100).2.2 (by norm_num) (by norm_num)⟩

/-- C6 counterexample: at temperature 14.5, wind 0, the returned value at
humidity 100 is 15.1, strictly greater than the 14.8 returned at humidity 70
(the blend branch's humidity term outweighs the wet-cold correction); and at
temperature 5, wind 0, humidity 70.1 the return equals the humidity-70 value
5.0 (the tiny correction is absorbed by rounding) — so the claimed strict
decrease of the returned perceived temperature is false. -/
theorem calc_realfeel_wet_cold_cex :
    Calc_RealFeel (29/2) 0 100 = 151/10 ∧ Calc_RealFeel (29/2) 0 70 = 74/5 ∧
    ¬(Calc_RealFeel (29/2) 0 100 < Calc_RealFeel (29/2) 0 70) ∧
    Calc_RealFeel 5 0 (701/10) = 5 ∧ Calc_RealFeel 5 0 70 = 5 := by
  have e1 : preRealFeel (29/2) 0 100 = 301/20 := by
    simp only [preRealFeel, realFeelBase, temp_mild_real, humidity_high_real, temp_warm_real]
    rw [if_pos (by norm_num : (29/2:ℝ) < 15 ∧ (70:ℝ) < 100),
      if_neg (by norm_num : ¬(29/2:ℝ) ≤ 10), if_neg (by norm_num : ¬(25:ℝ) ≤ 29/2)]
    norm_num [max_self, Real.sqrt_zero]
  have e2 : preRealFeel (29/2) 0 70 = 74/5 := by
    simp only [preRealFeel, realFeelBase, temp_mild_real, humidity_high_real, temp_warm_real]
    rw [if_neg (by norm_num : ¬((29/2:ℝ) < 15 ∧ (70:ℝ) < 70)),
      if_neg (by norm_num : ¬(29/2:ℝ) ≤ 10), if_neg (by norm_num : ¬(25:ℝ) ≤ 29/2)]
    norm_num [max_self, Real.sqrt_zero]
  have e3 : preRealFeel 5 0 (701/10) = 374/75 := by
    simp only [preRealFeel, realFeelBase, temp_mild_real, humidity_high_real, temp_warm_real]
    rw [if_pos (by norm_num : (5:ℝ) < 15 ∧ (70:ℝ) < 701/10),
      if_pos (by norm_num : (5:ℝ) ≤ 10)]
    norm_num [max_self, Real.sqrt_zero]
  have e4 : preRealFeel 5 0 70 = 5 := by
    simp only [preRealFeel, realFeelBase, temp_mild_real, humidity_high_real, temp_warm_real]
    rw [if_neg (by norm_num : ¬((5:ℝ) < 15 ∧ (70:ℝ) < 70)),
      if_pos (by norm_num : (5:ℝ) ≤ 10)]
    norm_num [max_self, Real.sqrt_zero]
  refine ⟨?_, ?_, ?_, ?_, ?_⟩
  · simp only [Calc_RealFeel, e1]
    rw [round1_eval (301/20) 151 (by norm_num) (by norm_num)]
    norm_num
  · simp only [Calc_RealFeel, e2]
    rw [round1_eval (74/5) 148 (by norm_num) (by norm_num)]
    norm_num
  · simp only [Calc_RealFeel, e1, e2]
    rw [round1_eval (301/20) 151 (by norm_num) (by norm_num),
      round1_eval (74/5) 148 (by norm_num) (by norm_num)]
    norm_num
  · simp only [Calc_RealFeel, e3]
    rw [round1_eval (374/75) 50 (by norm_num) (by norm_num)]
    norm_num
  · simp only [Calc_RealFeel, e4]
    rw [round1_eval 5 50 (by norm_num) (by norm_num)]
    norm_num

/-! ## C3: moderate wind tier -/

/-- C3 (amended): when the moderate wind tier fires (windLevel in [4,7)) with
tempMax < 27, the generic windproof-layer item is appended to the extras only
if no windproof layer was prefixed into the base in this step; the moderate
rationale clause is appended exactly when the extras item is — when the base
already contained windproof wording.  When the prefix does occur, neither the
extras item nor any rationale clause is appended (the original claim said a
rationale clause is appended in every moderate-tier invocation). -/
theorem moderate_wind_dedup (w t : ℚ) (st : MatchState) (ht : t < TEMP_HOT)
    (h4 : WIND_STRONG ≤ w) (h7 : w < WIND_VERY_STRONG) :
    (strContains st.base "防风" = true →
      windStep w t st = { st with
        extra_items := st.extra_items ++ ["防风层（冲锋衣/风衣）"]
        logic_parts := st.logic_parts ++ [moderateWindClause w] })
    ∧ (strContains st.base "防风" = false →
      windStep w t st = { st with base := "防风层（冲锋衣/风衣） + " ++ st.base }) := by
  constructor <;> intro hb <;>
    simp [windStep, _handle_wind_protection, if_neg (not_le.mpr h7), if_pos h4, if_pos ht, hb]

/-- C3 witness: the amended theorem applied with wind 5, tempMax 20 and a
base that already mentions a windproof layer. -/
theorem moderate_wind_dedup_witness :
    ((20:ℚ) < TEMP_HOT ∧ WIND_STRONG ≤ (5:ℚ) ∧ (5:ℚ) < WIND_VERY_STRONG ∧
      strContains "长袖衬衫/针织衫 + 防风夹克或呢大衣" "防风" = true) ∧
    windStep 5 20 ⟨"长袖衬衫/针织衫 + 防风夹克或呢大衣", [], [], "常规运动鞋", []⟩ =
      ⟨"长袖衬衫/针织衫 + 防风夹克或呢大衣", [], ["防风层（冲锋衣/风衣）"], "常规运动鞋",
        [moderateWindClause 5]⟩ := by
  refine ⟨⟨by decide, by decide, by decide, by decide⟩, ?_⟩
  rw [(moderate_wind_dedup 5 20 ⟨"长袖衬衫/针织衫 + 防风夹克或呢大衣", [], [], "常规运动鞋", []⟩
    (by decide) (by decide) (by decide)).1 (by decide)]
  rfl

/-- C3 counterexample: at perceived 20 with tempMax 20, wind 5,
precipitation 30, the moderate tier fires and prefixes the base with the
windproof layer, yet no rationale clause at all is appended — refuting the
claim that every moderate-tier invocation appends a rationale clause. -/
theorem moderate_wind_dedup_cex :
    (matchState 20 wcModerateWind).base =
        "防风层（冲锋衣/风衣） + 短袖/薄长袖 + 轻便外套（如薄开衫）"
    ∧ (matchState 20 wcModerateWind).logic_parts = []
    ∧ (Match_Clothing 20 wcModerateWind).protection_tips = [] := by decide

/-! ## C1: end-to-end scenario 3 -/

/-- C1 (amended): for tempMax 8, tempMin 2, humidity 88, windLevel 8,
precipitation 60 and any perceived temperature below 15 (every perceived
value consistent with these conditions), the cold-wet override fires — it
appends the warmth-retention extra, sets footwear to waterproof boots
(`防水靴或防拨水运动鞋`) and appends its rationale clause — but leaves the base
unchanged, since every base selected below 15 °C already mentions a down coat
or jacket; the strong-wind branch appends the silhouette warning and its
rationale clause without prefixing the base, which already contains windproof
wording; precipitation 60 fails the > 70 check, so only the umbrella branch
fires and the footwear remains the cold-wet waterproof boots rather than
professional rain footwear; the rationale contains both the cold-wet and the
strong-wind clauses. -/
theorem scenario3_cold_wet (rf : ℚ) (h15 : rf < TEMP_MILD) :
    (matchState rf wcScenario3).logic_parts =
        [coldWetClause 8 88, strongWindClause 8, rainUmbrellaClause 60]
    ∧ (matchState rf wcScenario3).extra_items =
        ["暖宝宝或发热内衣（湿气会加速体温流失）",
          "【强风加固型建议】避免易兜风衣物（如宽松长裙、大摆外套），选择贴身剪裁",
          "折叠伞/雨具"]
    ∧ (matchState rf wcScenario3).footwear = "防水靴或防拨水运动鞋"
    ∧ (matchState rf wcScenario3).base = (coreLayer rf).1 := by
  have hm : matchState rf wcScenario3 =
      fogStep 88 60 (footwearFallback 8 60 (uvStep 8 60 (rainStep 60 (windStep 8 8
        (scenarioAB 8 88 ⟨(coreLayer rf).1, (coreLayer rf).2, [], "常规运动鞋", []⟩))))) := rfl
  rcases lt_or_le rf 0 with h0 | h0
  · have hb : coreLayer rf = ("保暖层（长袖内衣+毛衣）+ 加厚防风羽绒服", ["围巾", "手套"]) := by
      simp only [coreLayer]
      rw [if_pos (show rf < TEMP_VERY_COLD from h0)]
    rw [hm, hb]
    decide
  · have hb : coreLayer rf = ("长袖衬衫/针织衫 + 防风夹克或呢大衣", []) := by
      simp only [coreLayer]
      rw [if_neg (show ¬ rf < TEMP_VERY_COLD from not_lt.mpr h0),
        if_pos (show TEMP_VERY_COLD ≤ rf ∧ rf < TEMP_MILD from ⟨h0, h15⟩)]
    rw [hm, hb]
    decide

/-- C1 witness: the amended theorem applied at perceived temperature 5. -/
theorem scenario3_cold_wet_witness :
    ((5:ℚ) < TEMP_MILD) ∧
    ((matchState 5 wcScenario3).logic_parts =
        [coldWetClause 8 88, strongWindClause 8, rainUmbrellaClause 60]
    ∧ (matchState 5 wcScenario3).extra_items =
        ["暖宝宝或发热内衣（湿气会加速体温流失）",
          "【强风加固型建议】避免易兜风衣物（如宽松长裙、大摆外套），选择贴身剪裁",
          "折叠伞/雨具"]
    ∧ (matchState 5 wcScenario3).footwear = "防水靴或防拨水运动鞋"
    ∧ (matchState 5 wcScenario3).base = (coreLayer 5).1) :=
  ⟨by decide, scenario3_cold_wet 5 (by decide)⟩

/-- C1 counterexample: at perceived 5 under scenario-3 weather, footwear is
the cold-wet waterproof boots, not professional rain footwear, and the base is
the plain 0-15 °C band base — the strong-wind branch did not prefix it. -/
theorem scenario3_cold_wet_cex :
    (matchState 5 wcScenario3).footwear = "防水靴或防拨水运动鞋"
    ∧ (matchState 5 wcScenario3).footwear ≠ "专业防滑雨鞋或备用袜子"
    ∧ (matchState 5 wcScenario3).base = "长袖衬衫/针织衫 + 防风夹克或呢大衣"
    ∧ strContains (matchState 5 wcScenario3).base "强风加固型外套" = false
    ∧ (Match_Clothing 5 wcScenario3).footwear = "防水靴或防拨水运动鞋" := by decide

/-! ## Clause shape lemmas: each rationale clause decomposed as a constant
head followed by the interpolated tail -/

lemma coldWetClause_data (t h : ℚ) :
    (coldWetClause t h).data = "检测到湿冷环境（温度".data ++ ((toString t).data ++
      ("°C，湿度".data ++ ((toString h).data ++
        "%），已强化防风拨水方案，避免衣物受潮失去保暖性".data))) := by
  simp [coldWetClause, strData_append, List.append_assoc]

lemma heatHumidClause_data (t h : ℚ) :
    (heatHumidClause t h).data = "检测到湿热桑拿环境（温度".data ++ ((toString t).data ++
      ("°C，湿度".data ++ ((toString h).data ++
        "%），已为您优化为速干排汗方案，禁止厚重衣物".data))) := by
  simp [heatHumidClause, strData_append, List.append_assoc]

lemma hotWindClause_data (t w : ℚ) :
    (hotWindClause t w).data = "检测到高温强风矛盾天气（温度".data ++ ((toString t).data ++
      ("°C，".data ++ ((toString w).data ++ "级风），已平衡防风与散热需求".data))) := by
  simp [hotWindClause, strData_append, List.append_assoc]

lemma rainHeavyClause_data (r : ℚ) :
    (rainHeavyClause r).data = "降水概率".data ++ ((toString r).data ++
      "%，建议专业防滑雨鞋".data) := by
  simp [rainHeavyClause, strData_append, List.append_assoc]

lemma rainUmbrellaClause_data (r : ℚ) :
    (rainUmbrellaClause r).data = "降水概率".data ++ ((toString r).data ++
      "%，建议携带雨具".data) := by
  simp [rainUmbrellaClause, strData_append, List.append_assoc]

lemma fogClause_data (h : ℚ) :
    (fogClause h).data = "检测到极高湿度（".data ++ ((toString h).data ++
      "%）且无降水，已触发浓雾预警方案（多因素关联分析）".data) := by
  simp [fogClause, strData_append, List.append_assoc]

lemma dampClause_data (h : ℚ) :
    (dampClause h).data = "检测到极高湿度（".data ++ ((toString h).data ++
      "%），已切换至防潮排汗方案".data) := by
  simp [dampClause, strData_append, List.append_assoc]

/-! ## The cold-wet rationale clause differs from every clause the pipeline
can emit after a heat-humid override -/

lemma coldWet_ne_heatHumid (a b t h : ℚ) : coldWetClause a b ≠ heatHumidClause t h := by
  apply str_ne_of_take 5
  rw [coldWetClause_data, heatHumidClause_data,
    take_append_left "检测到湿冷环境（温度".data _ 5 (by decide),
    take_append_left "检测到湿热桑拿环境（温度".data _ 5 (by decide)]
  decide

lemma coldWet_ne_hotWind (a b t w : ℚ) : coldWetClause a b ≠ hotWindClause t w := by
  apply str_ne_of_take 4
  rw [coldWetClause_data, hotWindClause_data,
    take_append_left "检测到湿冷环境（温度".data _ 4 (by decide),
    take_append_left "检测到高温强风矛盾天气（温度".data _ 4 (by decide)]
  decide

lemma coldWet_ne_rainHeavy (a b r : ℚ) : coldWetClause a b ≠ rainHeavyClause r := by
  apply str_ne_of_take 1
  rw [coldWetClause_data, rainHeavyClause_data,
    take_append_left "检测到湿冷环境（温度".data _ 1 (by decide),
    take_append_left "降水概率".data _ 1 (by decide)]
  decide

lemma coldWet_ne_rainUmbrella (a b r : ℚ) : coldWetClause a b ≠ rainUmbrellaClause r := by
  apply str_ne_of_take 1
  rw [coldWetClause_data, rainUmbrellaClause_data,
    take_append_left "检测到湿冷环境（温度".data _ 1 (by decide),
    take_append_left "降水概率".data _ 1 (by decide)]
  decide

lemma coldWet_ne_uv (a b : ℚ) : coldWetClause a b ≠ uvClause := by
  apply str_ne_of_take 1
  rw [coldWetClause_data, take_append_left "检测到湿冷环境（温度".data _ 1 (by decide)]
  decide

lemma coldWet_ne_fog (a b h : ℚ) : coldWetClause a b ≠ fogClause h := by
  apply str_ne_of_take 4
  rw [coldWetClause_data, fogClause_data,
    take_append_left "检测到湿冷环境（温度".data _ 4 (by decide),
    take_append_left "检测到极高湿度（".data _ 4 (by decide)]
  decide

lemma coldWet_ne_damp (a b h : ℚ) : coldWetClause a b ≠ dampClause h := by
  apply str_ne_of_take 4
  rw [coldWetClause_data, dampClause_data,
    take_append_left "检测到湿冷环境（温度".data _ 4 (by decide),
    take_append_left "检测到极高湿度（".data _ 4 (by decide)]
  decide

/-! ## Per-stage shape lemmas for the Match_Clothing pipeline -/

lemma scenarioAB_heat (t h : ℚ) (st : MatchState) (h1 : TEMP_HOT < t)
    (h2 : HUMIDITY_HIGH < h) :
    scenarioAB t h st = { st with
      base := "【清爽模式】极薄透气面料（亚麻/速干材质）"
      extra_items := st.extra_items ++ ["极薄防晒衣（预防强冷气房温差）"]
      footwear := "透气凉鞋或网面运动鞋"
      logic_parts := st.logic_parts ++ [heatHumidClause t h] } := by
  simp only [scenarioAB]
  rw [if_pos ⟨h1, h2⟩]

lemma windStep_hot_fields (w t : ℚ) (st : MatchState) (ht : ¬ t < TEMP_HOT) :
    (windStep w t st).base = st.base
    ∧ (windStep w t st).accessories = st.accessories
    ∧ (windStep w t st).footwear = st.footwear
    ∧ (∃ e, (windStep w t st).extra_items = st.extra_items ++ e ∧
        ∀ c ∈ e, c = "【强风vs高温权衡】建议轻薄防风外套，避免完全暴露于强风中，同时保持透气性"
          ∨ c = "防风墨镜（预防风沙/强风）")
    ∧ (∃ l, (windStep w t st).logic_parts = st.logic_parts ++ l ∧
        ∀ c ∈ l, c = hotWindClause t w) := by
  by_cases h7 : WIND_VERY_STRONG ≤ w
  · have h : windStep w t st = { st with
        extra_items := st.extra_items ++
          ["【强风vs高温权衡】建议轻薄防风外套，避免完全暴露于强风中，同时保持透气性",
            "防风墨镜（预防风沙/强风）"]
        logic_parts := st.logic_parts ++ [hotWindClause t w] } := by
      simp only [windStep, if_pos h7, _handle_wind_protection, if_neg ht]
    rw [h]
    exact ⟨rfl, rfl, rfl,
      ⟨["【强风vs高温权衡】建议轻薄防风外套，避免完全暴露于强风中，同时保持透气性",
        "防风墨镜（预防风沙/强风）"], rfl, by intro c hc; simpa using hc⟩,
      ⟨[hotWindClause t w], rfl, by intro c hc; simpa using hc⟩⟩
  · by_cases h4 : WIND_STRONG ≤ w
    · have h : windStep w t st = { st with
          extra_items := st.extra_items ++
            ["【强风vs高温权衡】建议轻薄防风外套，避免完全暴露于强风中，同时保持透气性",
              "防风墨镜（预防风沙/强风）"]
          logic_parts := st.logic_parts ++ [hotWindClause t w] } := by
        simp only [windStep, if_neg h7, if_pos h4, _handle_wind_protection, if_neg ht]
      rw [h]
      exact ⟨rfl, rfl, rfl,
        ⟨["【强风vs高温权衡】建议轻薄防风外套，避免完全暴露于强风中，同时保持透气性",
          "防风墨镜（预防风沙/强风）"], rfl, by intro c hc; simpa using hc⟩,
        ⟨[hotWindClause t w], rfl, by intro c hc; simpa using hc⟩⟩
    · have h : windStep w t st = st := by
        simp only [windStep, if_neg h7, if_neg h4]
      rw [h]
      exact ⟨rfl, rfl, rfl, ⟨[], (List.append_nil _).symm, by simp⟩,
        ⟨[], (List.append_nil _).symm, by simp⟩⟩

lemma rainStep_fields (r : ℚ) (st : MatchState) :
    (rainStep r st).base = st.base
    ∧ (rainStep r st).accessories = st.accessories
    ∧ ((rainStep r st).footwear = st.footwear ∨
        (rainStep r st).footwear = "专业防滑雨鞋或备用袜子")
    ∧ (∃ e, (rainStep r st).extra_items = st.extra_items ++ e ∧ ∀ c ∈ e, c = "折叠伞/雨具")
    ∧ (∃ l, (rainStep r st).logic_parts = st.logic_parts ++ l ∧
        ∀ c ∈ l, c = rainHeavyClause r ∨ c = rainUmbrellaClause r) := by
  by_cases h1 : RAIN_CHANCE_HIGH < r
  · by_cases h2 : RAIN_CHANCE_EXTREME < r
    · have h : rainStep r st = { st with
          extra_items := st.extra_items ++ ["折叠伞/雨具"]
          footwear := "专业防滑雨鞋或备用袜子"
          logic_parts := st.logic_parts ++ [rainHeavyClause r] } := by
        simp only [rainStep, if_pos h1, if_pos h2]
      rw [h]
      exact ⟨rfl, rfl, Or.inr rfl, ⟨["折叠伞/雨具"], rfl, by intro c hc; simpa using hc⟩,
        ⟨[rainHeavyClause r], rfl, by intro c hc; exact Or.inl (by simpa using hc)⟩⟩
    · have h : rainStep r st = { st with
          extra_items := st.extra_items ++ ["折叠伞/雨具"]
          logic_parts := st.logic_parts ++ [rainUmbrellaClause r] } := by
        simp only [rainStep, if_pos h1, if_neg h2]
      rw [h]
      exact ⟨rfl, rfl, Or.inl rfl, ⟨["折叠伞/雨具"], rfl, by intro c hc; simpa using hc⟩,
        ⟨[rainUmbrellaClause r], rfl, by intro c hc; exact Or.inr (by simpa using hc)⟩⟩
  · have h : rainStep r st = st := by simp only [rainStep, if_neg h1]
    rw [h]
    exact ⟨rfl, rfl, Or.inl rfl, ⟨[], (List.append_nil _).symm, by simp⟩,
      ⟨[], (List.append_nil _).symm, by simp⟩⟩

lemma uvStep_fields (t r : ℚ) (st : MatchState) :
    (uvStep t r st).base = st.base
    ∧ (uvStep t r st).extra_items = st.extra_items
    ∧ (uvStep t r st).footwear = st.footwear
    ∧ (∃ l, (uvStep t r st).logic_parts = st.logic_parts ++ l ∧ ∀ c ∈ l, c = uvClause) := by
  by_cases h1 : 20 < t ∧ r < RAIN_CHANCE_MODERATE
  · have h : uvStep t r st = { st with
        accessories :=
          if TEMP_WARM ≤ t then
            (if st.accessories.contains "防晒霜" then st.accessories
             else st.accessories ++ ["防晒霜"]) ++ ["遮阳帽", "墨镜"]
          else
            (if st.accessories.contains "防晒霜" then st.accessories
             else st.accessories ++ ["防晒霜"])
        logic_parts := st.logic_parts ++ [uvClause] } := by
      simp only [uvStep, if_pos h1]
    rw [h]
    exact ⟨rfl, rfl, rfl, ⟨[uvClause], rfl, by intro c hc; simpa using hc⟩⟩
  · have h : uvStep t r st = st := by simp only [uvStep, if_neg h1]
    rw [h]
    exact ⟨rfl, rfl, rfl, ⟨[], (List.append_nil _).symm, by simp⟩⟩

lemma footwearFallback_fields (t r : ℚ) (st : MatchState) :
    (footwearFallback t r st).base = st.base
    ∧ (footwearFallback t r st).accessories = st.accessories
    ∧ (footwearFallback t r st).extra_items = st.extra_items
    ∧ (footwearFallback t r st).logic_parts = st.logic_parts
    ∧ (st.footwear ≠ "常规运动鞋" → (footwearFallback t r st).footwear = st.footwear) := by
  by_cases h : st.footwear = "常规运动鞋"
  · have he : footwearFallback t r st = { st with footwear :=
        if RAIN_CHANCE_EXTREME < r then "专业防滑雨鞋或备用袜子"
        else if RAIN_CHANCE_HIGH < r then "防滑运动鞋（建议防水处理）"
        else if t < 5 then "保暖防滑靴"
        else if TEMP_VERY_HOT < t then "透气凉鞋或网面运动鞋"
        else if TEMP_WARM < t then "透气运动鞋或凉鞋"
        else st.footwear } := by
      simp only [footwearFallback, if_pos h]
    rw [he]
    exact ⟨rfl, rfl, rfl, rfl, fun hne => absurd h hne⟩
  · have he : footwearFallback t r st = st := by simp only [footwearFallback, if_neg h]
    rw [he]
    exact ⟨rfl, rfl, rfl, rfl, fun _ => rfl⟩

lemma fogStep_fields (h r : ℚ) (st : MatchState) :
    (fogStep h r st).base = st.base
    ∧ (fogStep h r st).accessories = st.accessories
    ∧ (fogStep h r st).footwear = st.footwear
    ∧ (∃ e, (fogStep h r st).extra_items = st.extra_items ++ e ∧
        ∀ c ∈ e,
          c = "【浓雾预警】湿度极高且无降水，可能存在浓雾，建议选择颜色鲜艳或反光材质的衣物，提高可见度")
    ∧ (∃ l, (fogStep h r st).logic_parts = st.logic_parts ++ l ∧
        ∀ c ∈ l, c = fogClause h ∨ c = dampClause h) := by
  by_cases h1 : HUMIDITY_EXTREME < h ∧ r < RAIN_CHANCE_MODERATE
  · have he : fogStep h r st = { st with
        extra_items := st.extra_items ++
          ["【浓雾预警】湿度极高且无降水，可能存在浓雾，建议选择颜色鲜艳或反光材质的衣物，提高可见度"]
        logic_parts := st.logic_parts ++ [fogClause h] } := by
      simp only [fogStep, if_pos h1]
    rw [he]
    exact ⟨rfl, rfl, rfl,
      ⟨["【浓雾预警】湿度极高且无降水，可能存在浓雾，建议选择颜色鲜艳或反光材质的衣物，提高可见度"],
        rfl, by intro c hc; simpa using hc⟩,
      ⟨[fogClause h], rfl, by intro c hc; exact Or.inl (by simpa using hc)⟩⟩
  · by_cases h2 : HUMIDITY_VERY_HIGH < h ∧ r < RAIN_CHANCE_VERY_HIGH
    · by_cases h3 : strContains (String.intercalate " " st.extra_items) "防潮" = false
      · have he : fogStep h r st =
            { st with logic_parts := st.logic_parts ++ [dampClause h] } := by
          simp only [fogStep, if_neg h1, if_pos h2, if_pos h3]
        rw [he]
        exact ⟨rfl, rfl, rfl, ⟨[], (List.append_nil _).symm, by simp⟩,
          ⟨[dampClause h], rfl, by intro c hc; exact Or.inr (by simpa using hc)⟩⟩
      · have he : fogStep h r st = st := by
          simp only [fogStep, if_neg h1, if_pos h2, if_neg h3]
        rw [he]
        exact ⟨rfl, rfl, rfl, ⟨[], (List.append_nil _).symm, by simp⟩,
          ⟨[], (List.append_nil _).symm, by simp⟩⟩
    · have he : fogStep h r st = st := by simp only [fogStep, if_neg h1, if_neg h2]
      rw [he]
      exact ⟨rfl, rfl, rfl, ⟨[], (List.append_nil _).symm, by simp⟩,
        ⟨[], (List.append_nil _).symm, by simp⟩⟩

/-- Composition of the pipeline stages after the scenario-A/B step, for a hot
day (tempMax ≥ 27): the base is preserved, the rationale and extras only grow
by clauses/items from the known later-stage sets, and footwear is preserved
unless the heavy-rain override claims it. -/
lemma pipeline_tail_fields (temp hum wind rain : ℚ) (st : MatchState)
    (ht : ¬ temp < TEMP_HOT) (hf : st.footwear ≠ "常规运动鞋") :
    (fogStep hum rain (footwearFallback temp rain (uvStep temp rain (rainStep rain
        (windStep wind temp st))))).base = st.base
    ∧ (∃ l, (fogStep hum rain (footwearFallback temp rain (uvStep temp rain (rainStep rain
          (windStep wind temp st))))).logic_parts = st.logic_parts ++ l ∧
        ∀ c ∈ l, c = hotWindClause temp wind ∨ c = rainHeavyClause rain
          ∨ c = rainUmbrellaClause rain ∨ c = uvClause ∨ c = fogClause hum
          ∨ c = dampClause hum)
    ∧ (∃ e, (fogStep hum rain (footwearFallback temp rain (uvStep temp rain (rainStep rain
          (windStep wind temp st))))).extra_items = st.extra_items ++ e ∧
        ∀ c ∈ e, c = "【强风vs高温权衡】建议轻薄防风外套，避免完全暴露于强风中，同时保持透气性"
          ∨ c = "防风墨镜（预防风沙/强风）" ∨ c = "折叠伞/雨具"
          ∨ c = "【浓雾预警】湿度极高且无降水，可能存在浓雾，建议选择颜色鲜艳或反光材质的衣物，提高可见度")
    ∧ ((fogStep hum rain (footwearFallback temp rain (uvStep temp rain (rainStep rain
          (windStep wind temp st))))).footwear = st.footwear
        ∨ (fogStep hum rain (footwearFallback temp rain (uvStep temp rain (rainStep rain
          (windStep wind temp st))))).footwear = "专业防滑雨鞋或备用袜子") := by
  obtain ⟨w_b, w_a, w_f, ⟨e2, he2, he2m⟩, ⟨l2, hl2, hl2m⟩⟩ :=
    windStep_hot_fields wind temp st ht
  obtain ⟨r_b, r_a, r_f, ⟨e3, he3, he3m⟩, ⟨l3, hl3, hl3m⟩⟩ :=
    rainStep_fields rain (windStep wind temp st)
  obtain ⟨u_b, u_e, u_f, ⟨l4, hl4, hl4m⟩⟩ :=
    uvStep_fields temp rain (rainStep rain (windStep wind temp st))
  obtain ⟨f_b, f_a, f_e, f_l, f_f⟩ :=
    footwearFallback_fields temp rain (uvStep temp rain (rainStep rain (windStep wind temp st)))
  obtain ⟨g_b, g_a, g_f, ⟨e6, he6, he6m⟩, ⟨l6, hl6, hl6m⟩⟩ :=
    fogStep_fields hum rain
      (footwearFallback temp rain (uvStep temp rain (rainStep rain (windStep wind temp st))))
  refine ⟨?_, ⟨l2 ++ l3 ++ l4 ++ l6, ?_, ?_⟩, ⟨e2 ++ e3 ++ e6, ?_, ?_⟩, ?_⟩
  · rw [g_b, f_b, u_b, r_b, w_b]
  · rw [hl6, f_l, hl4, hl3, hl2]
    simp only [List.append_assoc]
  · intro c hc
    simp only [List.mem_append] at hc
    rcases hc with ((hc | hc) | hc) | hc
    · exact Or.inl (hl2m c hc)
    · rcases hl3m c hc with h' | h'
      · exact Or.inr (Or.inl h')
      · exact Or.inr (Or.inr (Or.inl h'))
    · exact Or.inr (Or.inr (Or.inr (Or.inl (hl4m c hc))))
    · rcases hl6m c hc with h' | h'
      · exact Or.inr (Or.inr (Or.inr (Or.inr (Or.inl h'))))
      · exact Or.inr (Or.inr (Or.inr (Or.inr (Or.inr h'))))
  · rw [he6, f_e, u_e, he3, he2]
    simp only [List.append_assoc]
  · intro c hc
    simp only [List.mem_append] at hc
    rcases hc with (hc | hc) | hc
    · rcases he2m c hc with h' | h'
      · exact Or.inl h'
      · exact Or.inr (Or.inl h')
    · exact Or.inr (Or.inr (Or.inl (he3m c hc)))
    · exact Or.inr (Or.inr (Or.inr (he6m c hc)))
  · have h3f : (uvStep temp rain (rainStep rain (windStep wind temp st))).footwear = st.footwear
        ∨ (uvStep temp rain (rainStep rain (windStep wind temp st))).footwear =
            "专业防滑雨鞋或备用袜子" := by
      rw [u_f]
      rcases r_f with h | h
      · left; rw [h, w_f]
      · right; exact h
    have hne : (uvStep temp rain (rainStep rain (windStep wind temp st))).footwear ≠
        "常规运动鞋" := by
      rcases h3f with h | h <;> rw [h]
      · exact hf
      · decide
    rw [g_f, f_f hne]
    exact h3f

/-- After a heat-humid override (tempMax > 27, humidity > 70), the final
match state has the quick-dry base, its rationale starts with the heat-humid
clause followed only by later-stage clauses, its extras start with the
light sun-protective layer followed only by later-stage items, and footwear
is the breathable sandals unless the heavy-rain override replaced it. -/
lemma matchState_heat_shape (rf : ℚ) (wc : WeatherCondition)
    (hT : TEMP_HOT < wc.temp_max.getD 20) (hH : HUMIDITY_HIGH < wc.humidity.getD 50) :
    (matchState rf wc).base = "【清爽模式】极薄透气面料（亚麻/速干材质）"
    ∧ (∃ l, (matchState rf wc).logic_parts =
          heatHumidClause (wc.temp_max.getD 20) (wc.humidity.getD 50) :: l ∧
        ∀ c ∈ l, c = hotWindClause (wc.temp_max.getD 20) (wc.wind.getD 0)
          ∨ c = rainHeavyClause (wc.precipitation.getD 0)
          ∨ c = rainUmbrellaClause (wc.precipitation.getD 0)
          ∨ c = uvClause
          ∨ c = fogClause (wc.humidity.getD 50)
          ∨ c = dampClause (wc.humidity.getD 50))
    ∧ (∃ e, (matchState rf wc).extra_items = "极薄防晒衣（预防强冷气房温差）" :: e ∧
        ∀ c ∈ e, c = "【强风vs高温权衡】建议轻薄防风外套，避免完全暴露于强风中，同时保持透气性"
          ∨ c = "防风墨镜（预防风沙/强风）" ∨ c = "折叠伞/雨具"
          ∨ c = "【浓雾预警】湿度极高且无降水，可能存在浓雾，建议选择颜色鲜艳或反光材质的衣物，提高可见度")
    ∧ ((matchState rf wc).footwear = "透气凉鞋或网面运动鞋"
        ∨ (matchState rf wc).footwear = "专业防滑雨鞋或备用袜子") := by
  have hAB : scenarioAB (wc.temp_max.getD 20) (wc.humidity.getD 50)
      ⟨(coreLayer rf).1, (coreLayer rf).2, [], "常规运动鞋", []⟩ =
      ⟨"【清爽模式】极薄透气面料（亚麻/速干材质）", (coreLayer rf).2,
        ["极薄防晒衣（预防强冷气房温差）"], "透气凉鞋或网面运动鞋",
        [heatHumidClause (wc.temp_max.getD 20) (wc.humidity.getD 50)]⟩ := by
    rw [scenarioAB_heat _ _ _ hT hH]
    rfl
  have hm : matchState rf wc =
      fogStep (wc.humidity.getD 50) (wc.precipitation.getD 0)
        (footwearFallback (wc.temp_max.getD 20) (wc.precipitation.getD 0)
          (uvStep (wc.temp_max.getD 20) (wc.precipitation.getD 0)
            (rainStep (wc.precipitation.getD 0)
              (windStep (wc.wind.getD 0) (wc.temp_max.getD 20)
                (⟨"【清爽模式】极薄透气面料（亚麻/速干材质）", (coreLayer rf).2,
                  ["极薄防晒衣（预防强冷气房温差）"], "透气凉鞋或网面运动鞋",
                  [heatHumidClause (wc.temp_max.getD 20) (wc.humidity.getD 50)]⟩ :
                  MatchState))))) := by
    rw [show matchState rf wc =
        fogStep (wc.humidity.getD 50) (wc.precipitation.getD 0)
          (footwearFallback (wc.temp_max.getD 20) (wc.precipitation.getD 0)
            (uvStep (wc.temp_max.getD 20) (wc.precipitation.getD 0)
              (rainStep (wc.precipitation.getD 0)
                (windStep (wc.wind.getD 0) (wc.temp_max.getD 20)
                  (scenarioAB (wc.temp_max.getD 20) (wc.humidity.getD 50)
                    ⟨(coreLayer rf).1, (coreLayer rf).2, [], "常规运动鞋", []⟩))))) from rfl,
      hAB]
  obtain ⟨p_b, ⟨l, hl, hlm⟩, ⟨e, he, hem⟩, p_f⟩ :=
    pipeline_tail_fields (wc.temp_max.getD 20) (wc.humidity.getD 50) (wc.wind.getD 0)
      (wc.precipitation.getD 0)
      ⟨"【清爽模式】极薄透气面料（亚麻/速干材质）", (coreLayer rf).2,
        ["极薄防晒衣（预防强冷气房温差）"], "透气凉鞋或网面运动鞋",
        [heatHumidClause (wc.temp_max.getD 20) (wc.humidity.getD 50)]⟩
      (not_lt.mpr (le_of_lt hT))
      (show ("透气凉鞋或网面运动鞋" : String) ≠ "常规运动鞋" by decide)
  refine ⟨?_, ⟨l, ?_, hlm⟩, ⟨e, ?_, hem⟩, ?_⟩
  · rw [hm, p_b]
  · rw [hm, hl]; rfl
  · rw [hm, he]; rfl
  · rw [hm]; exact p_f

/-! ## C5: heat-humid versus cold-wet exclusivity -/

/-- C5: the heat-humid condition (tempMax > 27 ∧ humidity > 70) and the
cold-wet condition (tempMax < 12 ∧ humidity > 70) are disjoint for every
input, and for tempMax > 27 with humidity > 75 the heat-humid override — and
not the cold-wet one — fires: the base is the quick-dry rewrite, the
heat-humid rationale clause is present, no cold-wet rationale clause (for any
interpolated values) and no cold-wet warmth item is present, and the footwear
is never the cold-wet waterproof boots. -/
theorem heat_cold_exclusive (t h rf a b : ℚ) (wc : WeatherCondition) :
    ¬((TEMP_HOT < t ∧ HUMIDITY_HIGH < h) ∧ (t < 12 ∧ HUMIDITY_HIGH < h))
    ∧ (TEMP_HOT < wc.temp_max.getD 20 → 75 < wc.humidity.getD 50 →
        (matchState rf wc).base = "【清爽模式】极薄透气面料（亚麻/速干材质）"
        ∧ heatHumidClause (wc.temp_max.getD 20) (wc.humidity.getD 50) ∈
            (matchState rf wc).logic_parts
        ∧ coldWetClause a b ∉ (matchState rf wc).logic_parts
        ∧ "暖宝宝或发热内衣（湿气会加速体温流失）" ∉ (matchState rf wc).extra_items
        ∧ (matchState rf wc).footwear ≠ "防水靴或防拨水运动鞋") := by
  constructor
  · rintro ⟨⟨h1, _⟩, h2, _⟩
    have e1 : (27 : ℚ) < t := by simpa [TEMP_HOT] using h1
    linarith
  · intro hT hH
    have hH' : HUMIDITY_HIGH < wc.humidity.getD 50 :=
      lt_of_le_of_lt (by norm_num [HUMIDITY_HIGH] : HUMIDITY_HIGH ≤ (75:ℚ)) hH
    obtain ⟨p_b, ⟨l, hl, hlm⟩, ⟨e, he, hem⟩, p_f⟩ := matchState_heat_shape rf wc hT hH'
    refine ⟨p_b, ?_, ?_, ?_, ?_⟩
    · rw [hl]; exact List.mem_cons_self _ _
    · rw [hl]; intro hmem
      rcases List.mem_cons.mp hmem with hcase | hcase
      · exact coldWet_ne_heatHumid a b _ _ hcase
      · rcases hlm _ hcase with h' | h' | h' | h' | h' | h'
        · exact coldWet_ne_hotWind a b _ _ h'
        · exact coldWet_ne_rainHeavy a b _ h'
        · exact coldWet_ne_rainUmbrella a b _ h'
        · exact coldWet_ne_uv a b h'
        · exact coldWet_ne_fog a b _ h'
        · exact coldWet_ne_damp a b _ h'
    · rw [he]; intro hmem
      rcases List.mem_cons.mp hmem with hcase | hcase
      · exact absurd hcase (by decide)
      · rcases hem _ hcase with h' | h' | h' | h' <;> exact absurd h' (by decide)
    · rcases p_f with hfo | hfo <;> rw [hfo] <;> decide

/-- C5 witness: the theorem applied at t 30, h 80, perceived 28, cold-wet
clause arguments 32 and 85, and the scenario-2 heat-humid weather. -/
theorem heat_cold_exclusive_witness :
    (TEMP_HOT < wcHeatHumid.temp_max.getD 20 ∧ (75:ℚ) < wcHeatHumid.humidity.getD 50) ∧
    (¬((TEMP_HOT < (30:ℚ) ∧ HUMIDITY_HIGH < (80:ℚ)) ∧ ((30:ℚ) < 12 ∧ HUMIDITY_HIGH < (80:ℚ)))
      ∧ ((matchState 28 wcHeatHumid).base = "【清爽模式】极薄透气面料（亚麻/速干材质）"
        ∧ heatHumidClause (wcHeatHumid.temp_max.getD 20) (wcHeatHumid.humidity.getD 50) ∈
            (matchState 28 wcHeatHumid).logic_parts
        ∧ coldWetClause 32 85 ∉ (matchState 28 wcHeatHumid).logic_parts
        ∧ "暖宝宝或发热内衣（湿气会加速体温流失）" ∉ (matchState 28 wcHeatHumid).extra_items
        ∧ (matchState 28 wcHeatHumid).footwear ≠ "防水靴或防拨水运动鞋")) :=
  ⟨⟨by decide, by decide⟩,
    ⟨(heat_cold_exclusive 30 80 28 32 85 wcHeatHumid).1,
      (heat_cold_exclusive 30 80 28 32 85 wcHeatHumid).2 (by decide) (by decide)⟩⟩
